import Mathlib

/-!
Verification of the location-triggered ambient audio player: the zone
resolver (`distanceMeters`, `findZone` in frontend/src/App.jsx), the audio
unlock and playback controller of the `App` component, and the Express
backend's zones endpoint.

Modelling conventions: JavaScript numbers are real numbers, JavaScript
strings are `String`.  JS truthiness is modelled explicitly where the code
relies on it (`radius_m || 50` on numbers, `track || a.src` on strings).
The asynchronous play attempts of the audio element are modelled by boolean
oracles saying whether the corresponding promise resolves or rejects; the
operations the controller performs on the audio element are recorded in an
explicit trace of `AudioOp`s.
-/

namespace VibePlayer

/-! ## Geometry: `distanceMeters` (App.jsx lines 3 to 12) -/

/-- The `toRad` helper of `distanceMeters`: degrees to radians. -/
noncomputable def toRad (deg : ℝ) : ℝ := deg * Real.pi / 180

/-- JavaScript `Math.atan2 y x`.  The program only ever applies it to two
square roots, which are non-negative, but the full quadrant-aware function
is modelled. -/
noncomputable def atan2 (y x : ℝ) : ℝ :=
  if 0 < x then Real.arctan (y / x)
  else if x < 0 then
    if 0 ≤ y then Real.arctan (y / x) + Real.pi else Real.arctan (y / x) - Real.pi
  else if 0 < y then Real.pi / 2
  else if y < 0 then -(Real.pi / 2)
  else 0

/-- The intermediate value `a` of `distanceMeters` (App.jsx lines 8 to 10):
`sin(dLat/2)^2 + cos(toRad lat1) * cos(toRad lat2) * sin(dLon/2)^2` with
`dLat = toRad (lat2 - lat1)` and `dLon = toRad (lon2 - lon1)`. -/
noncomputable def haversineA (lat1 lon1 lat2 lon2 : ℝ) : ℝ :=
  Real.sin (toRad (lat2 - lat1) / 2) ^ 2 +
    Real.cos (toRad lat1) * Real.cos (toRad lat2) *
      Real.sin (toRad (lon2 - lon1) / 2) ^ 2

/-- `distanceMeters` (App.jsx lines 3 to 12): haversine great-circle distance
on a sphere of radius 6371000 meters,
`R * 2 * atan2 (sqrt a) (sqrt (1 - a))`. -/
noncomputable def distanceMeters (lat1 lon1 lat2 lon2 : ℝ) : ℝ :=
  6371000 * 2 *
    atan2 (Real.sqrt (haversineA lat1 lon1 lat2 lon2))
      (Real.sqrt (1 - haversineA lat1 lon1 lat2 lon2))

/-! ## Data model -/

/-- A zone's `center` field. -/
structure Center where
  lat : ℝ
  lng : ℝ

/-- A zone record as served by `GET /api/zones`.  `radius_m` may be absent
(`Option`); `playlist` is the ordered list of track URLs (an absent playlist
is modelled as the empty list: the code only ever asks for
`z.playlist && z.playlist[0]`, which is equally falsy for both). -/
structure Zone where
  id : ℕ
  name : String
  center : Center
  radius_m : Option ℝ
  playlist : List String

/-- A geolocation coordinate (`p.coords`). -/
structure Coordinate where
  latitude : ℝ
  longitude : ℝ

/-- JavaScript `v || d` for an optionally present numeric field: `undefined`
and `0` are both falsy, so the default applies to either.  (`NaN` is also
falsy but has no counterpart in `ℝ`.) -/
noncomputable def jsOrNum (v : Option ℝ) (d : ℝ) : ℝ :=
  match v with
  | none => d
  | some x => if x = 0 then d else x

/-- The radius `findZone` compares against: `z.radius_m || 50`
(App.jsx line 23). -/
noncomputable def effectiveRadius (z : Zone) : ℝ := jsOrNum z.radius_m 50

/-- The loop-body test of `findZone` (App.jsx lines 17 to 23): the distance
from the coordinate to the zone's center is at most the effective radius. -/
noncomputable def zoneMatches (z : Zone) (c : Coordinate) : Prop :=
  distanceMeters c.latitude c.longitude z.center.lat z.center.lng ≤
    effectiveRadius z

open Classical in
/-- `findZone` (App.jsx lines 14 to 26): `null` for an absent coordinate,
else the first zone of the list whose `zoneMatches` test holds, else
`null`. -/
noncomputable def findZone : List Zone → Option Coordinate → Option Zone
  | _, none => none
  | [], some _ => none
  | z :: rest, some c =>
    if zoneMatches z c then some z else findZone rest (some c)

/-! ## Audio element, storage and application state -/

/-- An operation the controller performs on the audio element: assigning
`src`, calling `play()` or `pause()`, assigning `currentTime` or `muted`. -/
inductive AudioOp where
  | setSrc (track : String)
  | play
  | pause
  | setCurrentTime (t : ℝ)
  | setMuted (m : Bool)

/-- The observable state of the audio element (`audioRef.current`). -/
structure AudioEl where
  src : String
  muted : Bool
  currentTime : ℝ
  paused : Bool

/-- The persistent key-value storage, restricted to the one key the app
uses (`audioPrimed`).  `available = false` models storage whose operations
throw; every access in the code is wrapped in try/catch, so an unavailable
storage leaves the flag unchanged. -/
structure Storage where
  available : Bool
  audioPrimedFlag : Option String

/-- `localStorage.setItem("audioPrimed", "1")` inside try/catch
(App.jsx lines 142 to 144). -/
def storageSetPrimed (st : Storage) : Storage :=
  if st.available then { st with audioPrimedFlag := some "1" } else st

/-- `localStorage.removeItem("audioPrimed")` inside try/catch
(App.jsx lines 94 to 96). -/
def storageRemovePrimed (st : Storage) : Storage :=
  if st.available then { st with audioPrimedFlag := none } else st

/-- The state of the `App` component: the `zones`, `coords`, `zone`,
`audioPrimed` and `primingInProgress` pieces of React state, the audio
element behind `audioRef` (`none` when the ref is empty), and the storage. -/
structure AppState where
  zones : List Zone
  coords : Option Coordinate
  zone : Option Zone
  audioPrimed : Bool
  primingInProgress : Bool
  audio : Option AudioEl
  storage : Storage

/-! ## The zone-change effect (App.jsx lines 72 to 100)

Runs whenever `coords`, `zones` or `audioPrimed` changes: recomputes the
active zone, stores it in `zone`, and, when a zone with a (truthy) first
track is active and the element is available, loads the track; if
`audioPrimed` is set it then attempts `play()`.  `playOk` says whether that
play promise resolves; on rejection the code removes the persisted flag and
sets `audioPrimed` to `false`.  The returned list is the trace of
operations performed on the audio element. -/

noncomputable def zoneChangeEffect (playOk : Bool) (s : AppState) :
    AppState × List AudioOp :=
  let z := findZone s.zones s.coords
  let s1 := { s with zone := z }
  match z, s.audio with
  | none, _ => (s1, [])
  | some _, none => (s1, [])
  | some zz, some a =>
    match zz.playlist.head? with
    | none => (s1, [])
    | some t =>
      if t = "" then (s1, [])
      else
        let a1 := { a with src := t }
        if s.audioPrimed then
          if playOk then
            ({ s1 with audio := some { a1 with paused := false } },
              [AudioOp.setSrc t, AudioOp.play])
          else
            ({ s1 with
                audio := some a1
                audioPrimed := false
                storage := storageRemovePrimed s.storage },
              [AudioOp.setSrc t, AudioOp.play])
        else
          ({ s1 with audio := some a1 }, [AudioOp.setSrc t])

/-! ## The unlock procedure (App.jsx lines 103 to 150) -/

/-- `primeAudio` (App.jsx lines 103 to 131).  Returns `false` immediately
when the element is unavailable.  Otherwise takes the target track
(`(zone && zone.playlist && zone.playlist[0]) || a.src || ""`), assigns it
to `src` when truthy, sets `muted`, and attempts a muted `play()`
(`mutedOk` says whether it resolves).  On success: `pause()`, rewind,
unmute, then one best-effort audible `play()` (`audibleOk`), and the
procedure returns `true` whatever the audible attempt did.  On failure of
the muted attempt: the catch block unmutes the element and the procedure
returns `false`. -/
noncomputable def primeAudio (mutedOk audibleOk : Bool) (s : AppState) :
    Bool × AppState × List AudioOp :=
  match s.audio with
  | none => (false, s, [])
  | some a =>
    let zoneTrack := (s.zone.bind fun z => z.playlist.head?).getD ""
    let track := if zoneTrack = "" then a.src else zoneTrack
    let a1 := if track = "" then a else { a with src := track }
    let setOps := if track = "" then ([] : List AudioOp) else [AudioOp.setSrc track]
    let a2 := { a1 with muted := true }
    if mutedOk then
      let a3 := { a2 with paused := true, currentTime := 0, muted := false }
      if audibleOk then
        (true, { s with audio := some { a3 with paused := false } },
          setOps ++ [AudioOp.setMuted true, AudioOp.play, AudioOp.pause,
            AudioOp.setCurrentTime 0, AudioOp.setMuted false, AudioOp.play])
      else
        (true, { s with audio := some a3 },
          setOps ++ [AudioOp.setMuted true, AudioOp.play, AudioOp.pause,
            AudioOp.setCurrentTime 0, AudioOp.setMuted false, AudioOp.play])
    else
      (false, { s with audio := some { a2 with muted := false } },
        setOps ++ [AudioOp.setMuted true, AudioOp.play, AudioOp.setMuted false])

/-- `handleUserEnable` (App.jsx lines 134 to 150), run to completion with no
interleaved invocation: returns unchanged if `primingInProgress` is set;
otherwise sets it, runs `primeAudio`, clears it, and on success persists the
flag and sets `audioPrimed`, on failure sets `audioPrimed` to `false`. -/
noncomputable def handleUserEnable (mutedOk audibleOk : Bool) (s : AppState) :
    AppState :=
  if s.primingInProgress then s
  else
    let s1 := { s with primingInProgress := true }
    let r := primeAudio mutedOk audibleOk s1
    let s2 := { r.2.1 with primingInProgress := false }
    if r.1 then
      { s2 with storage := storageSetPrimed s2.storage, audioPrimed := true }
    else
      { s2 with audioPrimed := false }

/-! ## Two invocations of `handleUserEnable` in one event dispatch

`primingInProgress` is React `useState` state.  A state setter does not
change the value already captured by the closures of the current render: it
only schedules a re-render.  The global gesture listener
(App.jsx lines 153 to 176, a capture-phase `window` listener) and the
Enable button's `onClick` (App.jsx line 214) are both closures of the same
render, so a single click on the button while locked dispatches to both,
capture phase first, within one task; both read the same snapshot of
`primingInProgress`, and no re-render runs between them.  Each invocation
that passes the `if (primingInProgress) return` guard runs synchronously up
to the first `await` inside `primeAudio`, i.e. it has already called the
muted `play()` — one more unlock attempt is in flight — before it
suspends. -/

/-- The state of one event dispatch: the pending (scheduled) value of
`primingInProgress`, and how many muted `play()` calls made by `primeAudio`
are currently awaiting resolution. -/
structure GestureDispatch where
  pendingPriming : Bool
  mutedPlayAttemptsInFlight : ℕ

/-- The synchronous part of one invocation of `handleUserEnable` (with the
audio element available), up to the first suspension point: the guard reads
`renderPrimingInProgress`, the snapshot captured by the current render's
closure — not the pending value `setPrimingInProgress(true)` writes. -/
def handleUserEnableSyncPart (renderPrimingInProgress : Bool)
    (d : GestureDispatch) : GestureDispatch :=
  if renderPrimingInProgress then d
  else
    { pendingPriming := true,
      mutedPlayAttemptsInFlight := d.mutedPlayAttemptsInFlight + 1 }

/-- One click on the Enable Audio button while the banner is shown: the
capture-phase window gesture listener fires first, then the button's
`onClick`, both invoking `handleUserEnable` with the same render snapshot
of `primingInProgress`. -/
def sameGestureDoubleInvoke (renderPrimingInProgress : Bool) :
    GestureDispatch :=
  handleUserEnableSyncPart renderPrimingInProgress
    (handleUserEnableSyncPart renderPrimingInProgress
      { pendingPriming := renderPrimingInProgress,
        mutedPlayAttemptsInFlight := 0 })

/-! ## The zones fetch: backend endpoint and client effect -/

/-- The client's `zones` React state as a dynamically typed JavaScript
value: the intended array of zone records, or a plain object (such as the
backend's JSON error body), which is what `setZones` stores when handed
one. -/
inductive ZonesValue where
  | arr (zs : List Zone)
  | errObj (msg : String)

/-- Outcome of `JSON.parse(fs.readFileSync(ZONES_PATH))` on the backend. -/
inductive ReadZonesResult where
  | ok (zs : List Zone)
  | failure

/-- An HTTP response of the zones endpoint: a status and a JSON body. -/
structure ZonesResponse where
  status : ℕ
  body : ZonesValue

/-- The backend route `app.get('/api/zones')` (backend lines 13 to 20):
the parsed file with status 200, or status 500 with the JSON error body
whose `error` field is `"Could not read zones"`. -/
def zonesEndpoint : ReadZonesResult → ZonesResponse
  | ReadZonesResult.ok zs => { status := 200, body := ZonesValue.arr zs }
  | ReadZonesResult.failure =>
    { status := 500, body := ZonesValue.errObj "Could not read zones" }

/-- What can happen to the client's fetch of `/api/zones`: a response (of
any status), a rejected fetch (network failure), or a body that is not
JSON so `r.json()` rejects. -/
inductive FetchOutcome where
  | response (r : ZonesResponse)
  | networkFailure
  | bodyParseFailure

/-- The zones fetch effect (App.jsx lines 48 to 55):
`fetch("/api/zones").then(r => r.json()).then(setZones).catch(log)`.
There is no `r.ok` or status check: whenever a response arrives and its
body parses as JSON, the parsed body — whatever it is — is stored by
`setZones`.  Only a rejected fetch or a non-JSON body reaches the catch,
which logs and leaves `zones` at its initial value `[]`. -/
def zonesStateAfterFetch : FetchOutcome → ZonesValue
  | FetchOutcome.response r => r.body
  | FetchOutcome.networkFailure => ZonesValue.arr []
  | FetchOutcome.bodyParseFailure => ZonesValue.arr []

/-- Result of running a piece of JavaScript that may throw a `TypeError`. -/
inductive JsResult (α : Type) where
  | ok (val : α)
  | typeError

/-- `findZone` as the zone-change effect actually invokes it, on the
dynamically typed `zones` state: with an absent coordinate it returns
before touching `zones`; with a coordinate present, `for (const z of
zones)` over a non-array plain object throws a `TypeError`. -/
noncomputable def findZoneDyn : ZonesValue → Option Coordinate →
    JsResult (Option Zone)
  | _, none => JsResult.ok none
  | ZonesValue.arr zs, some c => JsResult.ok (findZone zs (some c))
  | ZonesValue.errObj _, some _ => JsResult.typeError

/-- The debug panel's render expression
`zones.map(z => ...)` (App.jsx line 244), projecting each zone to its id,
name, center and radius: `.map` on a non-array plain object is undefined,
so calling it throws a `TypeError` during render. -/
def renderDebugZones : ZonesValue → JsResult (List (ℕ × String × Center × Option ℝ))
  | ZonesValue.arr zs => JsResult.ok (zs.map fun z => (z.id, z.name, z.center, z.radius_m))
  | ZonesValue.errObj _ => JsResult.typeError

/-! ## Concrete fixtures used by counterexamples and witnesses -/

/-- A zone whose `radius_m` is present and equal to `0`. -/
noncomputable def zone0 : Zone :=
  { id := 1, name := "gate", center := { lat := 0, lng := 0 },
    radius_m := some 0, playlist := [] }

/-- A coordinate 1/10000 of a degree of latitude north of the origin:
about 11.1 meters from `zone0`'s center. -/
noncomputable def cexCoordinate : Coordinate :=
  { latitude := 0.0001, longitude := 0 }

/-- The origin coordinate. -/
noncomputable def originCoordinate : Coordinate :=
  { latitude := 0, longitude := 0 }

/-- A zone centered at the origin with a 100 m radius and one track. -/
noncomputable def plazaZone : Zone :=
  { id := 2, name := "plaza", center := { lat := 0, lng := 0 },
    radius_m := some 100, playlist := ["/Music/plaza.mp3"] }

/-- An idle audio element. -/
noncomputable def idleAudio : AudioEl :=
  { src := "", muted := false, currentTime := 0, paused := true }

/-- A state in which audio is primed, the plaza zone is active, the element
is present and the storage holds the persisted flag. -/
noncomputable def primedState : AppState :=
  { zones := [plazaZone], coords := some originCoordinate,
    zone := some plazaZone, audioPrimed := true, primingInProgress := false,
    audio := some idleAudio,
    storage := { available := true, audioPrimedFlag := some "1" } }

/-- The same state before any unlock: audio not primed, no persisted flag. -/
noncomputable def lockedState : AppState :=
  { primedState with
    audioPrimed := false
    storage := { available := true, audioPrimedFlag := none } }

/-- A locked state with no coordinate fix yet. -/
noncomputable def noFixState : AppState :=
  { lockedState with coords := none }

/-! ## Geometry lemmas -/

theorem toRad_zero : toRad 0 = 0 := by
  unfold toRad
  ring

theorem haversineA_self (lat lon : ℝ) : haversineA lat lon lat lon = 0 := by
  simp [haversineA, toRad_zero]

theorem distanceMeters_self (lat lon : ℝ) : distanceMeters lat lon lat lon = 0 := by
  unfold distanceMeters
  rw [haversineA_self]
  norm_num [atan2, Real.sqrt_one, Real.arctan_zero]

theorem haversineA_lat_axis (ε : ℝ) :
    haversineA ε 0 0 0 = Real.sin (toRad ε / 2) ^ 2 := by
  have h1 : toRad (-ε) = -(toRad ε) := by
    unfold toRad
    ring
  simp [haversineA, h1, neg_div, Real.sin_neg, neg_sq, toRad_zero]

theorem distanceMeters_lat_axis (ε : ℝ) (h0 : 0 ≤ ε) (h1 : ε < 180) :
    distanceMeters ε 0 0 0 = 6371000 * toRad ε := by
  have hπ := Real.pi_pos
  set θ := toRad ε / 2 with hθdef
  have hθ0 : 0 ≤ θ := by
    rw [hθdef]
    unfold toRad
    positivity
  have hθhalf : θ < Real.pi / 2 := by
    rw [hθdef]
    unfold toRad
    nlinarith [mul_pos hπ (show (0:ℝ) < 180 - ε by linarith)]
  have hsin : Real.sqrt (haversineA ε 0 0 0) = Real.sin θ := by
    rw [haversineA_lat_axis, Real.sqrt_sq_eq_abs, abs_of_nonneg]
    exact Real.sin_nonneg_of_nonneg_of_le_pi hθ0 (by linarith)
  have hcospos : 0 < Real.cos θ := Real.cos_pos_of_mem_Ioo ⟨by linarith, hθhalf⟩
  have hcos : Real.sqrt (1 - haversineA ε 0 0 0) = Real.cos θ := by
    rw [haversineA_lat_axis,
      show (1 : ℝ) - Real.sin θ ^ 2 = Real.cos θ ^ 2 from (Real.cos_sq' θ).symm,
      Real.sqrt_sq_eq_abs, abs_of_pos hcospos]
  have hatan : atan2 (Real.sin θ) (Real.cos θ) = θ := by
    unfold atan2
    rw [if_pos hcospos, ← Real.tan_eq_sin_div_cos]
    exact Real.arctan_tan (by linarith) hθhalf
  unfold distanceMeters
  rw [hsin, hcos, hatan, hθdef]
  ring

/-! ## Resolver lemmas -/

theorem findZone_nil (c : Option Coordinate) : findZone [] c = none := by
  cases c <;> rfl

theorem findZone_none_coords (zs : List Zone) : findZone zs none = none := by
  cases zs <;> rfl

open Classical in
theorem findZone_cons (z : Zone) (rest : List Zone) (c : Coordinate) :
    findZone (z :: rest) (some c) =
      if zoneMatches z c then some z else findZone rest (some c) := rfl

/-! ## Claim theorems for the resolver -/

/-- C1 (amended): for every zone list and present coordinate, `findZone`
returns the first zone in list order whose haversine distance from the
coordinate to the zone's center is at most the zone's effective radius —
`radius_m`, with the 50 m default applied when `radius_m` is unspecified
or zero — and returns none exactly when no zone qualifies. -/
theorem findZone_first_match (zones : List Zone) (c : Coordinate) :
    (∀ z : Zone, findZone zones (some c) = some z ↔
       ∃ pre post : List Zone, zones = pre ++ z :: post ∧ zoneMatches z c ∧
         ∀ y ∈ pre, ¬ zoneMatches y c) ∧
    (findZone zones (some c) = none ↔ ∀ z ∈ zones, ¬ zoneMatches z c) := by
  induction zones with
  | nil =>
    constructor
    · intro z
      constructor
      · intro h
        rw [findZone_nil] at h
        cases h
      · rintro ⟨pre, post, h, -, -⟩
        exact absurd h (by simp)
    · simp [findZone_nil]
  | cons z0 rest ih =>
    by_cases hm : zoneMatches z0 c
    · have hstep : findZone (z0 :: rest) (some c) = some z0 := by
        rw [findZone_cons, if_pos hm]
      constructor
      · intro z
        rw [hstep]
        constructor
        · intro h
          obtain rfl : z0 = z := Option.some.inj h
          exact ⟨[], rest, rfl, hm, by simp⟩
        · rintro ⟨pre, post, heq, hz, hpre⟩
          cases pre with
          | nil =>
            simp only [List.nil_append, List.cons.injEq] at heq
            rw [heq.1]
          | cons y pre' =>
            simp only [List.cons_append, List.cons.injEq] at heq
            exact absurd (heq.1 ▸ hm) (hpre y (by simp))
      · rw [hstep]
        constructor
        · intro h
          cases h
        · intro hall
          exact absurd hm (hall z0 (by simp))
    · have hstep : findZone (z0 :: rest) (some c) = findZone rest (some c) := by
        rw [findZone_cons, if_neg hm]
      constructor
      · intro z
        rw [hstep, ih.1 z]
        constructor
        · rintro ⟨pre, post, heq, hz, hpre⟩
          refine ⟨z0 :: pre, post, by rw [heq, List.cons_append], hz, ?_⟩
          intro y hy
          rcases List.mem_cons.mp hy with rfl | hy'
          · exact hm
          · exact hpre y hy'
        · rintro ⟨pre, post, heq, hz, hpre⟩
          cases pre with
          | nil =>
            simp only [List.nil_append, List.cons.injEq] at heq
            exact absurd (heq.1 ▸ hz) hm
          | cons y pre' =>
            simp only [List.cons_append, List.cons.injEq] at heq
            exact ⟨pre', post, heq.2, hz, fun y' hy' => hpre y' (List.mem_cons_of_mem y hy')⟩
      · rw [hstep, ih.2]
        constructor
        · intro hall zz hzz
          rcases List.mem_cons.mp hzz with rfl | h'
          · exact hm
          · exact hall zz h'
        · intro hall zz hzz
          exact hall zz (List.mem_cons_of_mem z0 hzz)

/-- C1 counterexample: for the zone `zone0`, whose `radius_m` is present and
equal to 0, and a coordinate about 11 meters from its center, no zone of the
list is within its specified radius (`Option.getD 50` is the literal reading
of the claim: the 50 m default only for an unspecified radius), yet
`findZone` returns the zone rather than none, because `radius_m || 50`
also replaces a zero radius by 50. -/
theorem literal_radius_counterexample :
    findZone [zone0] (some cexCoordinate) = some zone0 ∧
      ¬ distanceMeters cexCoordinate.latitude cexCoordinate.longitude
          zone0.center.lat zone0.center.lng ≤ zone0.radius_m.getD 50 := by
  have hd : distanceMeters (0.0001 : ℝ) 0 0 0 = 6371000 * toRad 0.0001 :=
    distanceMeters_lat_axis 0.0001 (by norm_num) (by norm_num)
  have hdle : distanceMeters (0.0001 : ℝ) 0 0 0 ≤ 50 := by
    rw [hd]
    unfold toRad
    nlinarith [Real.pi_lt_d2, Real.pi_pos]
  have hdpos : 0 < distanceMeters (0.0001 : ℝ) 0 0 0 := by
    rw [hd]
    unfold toRad
    positivity
  constructor
  · have hmatch : zoneMatches zone0 cexCoordinate := by
      unfold zoneMatches
      simp only [zone0, cexCoordinate, effectiveRadius, jsOrNum]
      simpa using hdle
    rw [findZone_cons, if_pos hmatch]
  · simp only [zone0, cexCoordinate, Option.getD_some]
    intro h
    exact absurd (lt_of_lt_of_le hdpos h) (by norm_num)

/-- C7: `findZone` returns none for every coordinate when the zone list is
empty, and for every zone list when the coordinate is absent. -/
theorem findZone_degenerate (c : Option Coordinate) (zs : List Zone) :
    findZone [] c = none ∧ findZone zs none = none :=
  ⟨findZone_nil c, findZone_none_coords zs⟩

/-- C9: for a zone whose `radius_m` field is present but equal to 0, the
effective radius `radius_m || 50` is the 50 m default, so a coordinate
within 50 m of the zone's center matches it. -/
theorem zero_radius_gets_default (z : Zone) (c : Coordinate)
    (h : z.radius_m = some 0) :
    effectiveRadius z = 50 ∧
      (distanceMeters c.latitude c.longitude z.center.lat z.center.lng ≤ 50 →
        findZone [z] (some c) = some z) := by
  have he : effectiveRadius z = 50 := by
    simp [effectiveRadius, jsOrNum, h]
  refine ⟨he, fun hd => ?_⟩
  have hmatch : zoneMatches z c := by
    unfold zoneMatches
    rw [he]
    exact hd
  rw [findZone_cons, if_pos hmatch]

/-- Witness for C9 at the concrete zone `zone0` and the origin coordinate,
which is at distance 0 from the zone's center. -/
theorem zero_radius_gets_default_witness :
    effectiveRadius zone0 = 50 ∧
      findZone [zone0] (some originCoordinate) = some zone0 := by
  have h := zero_radius_gets_default zone0 originCoordinate (by rfl)
  refine ⟨h.1, h.2 ?_⟩
  simp only [zone0, cexCoordinate, originCoordinate]
  rw [distanceMeters_self]
  norm_num

/-! ## Claim theorems for the fetch, the controller and the dispatch model -/

/-- C2: when the backend's read fails it answers status 500 with the JSON
error body; the client's fetch effect parses that body and stores it as the
`zones` state (there is no status check), after which the resolver invoked
with a present coordinate throws a `TypeError` (iterating a non-array) and
the debug render throws a `TypeError` (`.map` on a non-array) — the client
crashes instead of ending up with zero zones.  Only a rejected fetch or a
non-JSON body leaves `zones` empty, where the resolver indeed returns
none. -/
theorem zones_read_failure_crashes_client :
    zonesStateAfterFetch
        (FetchOutcome.response (zonesEndpoint ReadZonesResult.failure)) =
      ZonesValue.errObj "Could not read zones" ∧
    findZoneDyn
        (zonesStateAfterFetch
          (FetchOutcome.response (zonesEndpoint ReadZonesResult.failure)))
        (some originCoordinate) = JsResult.typeError ∧
    renderDebugZones
        (zonesStateAfterFetch
          (FetchOutcome.response (zonesEndpoint ReadZonesResult.failure))) =
      JsResult.typeError ∧
    findZoneDyn (zonesStateAfterFetch FetchOutcome.networkFailure)
        (some originCoordinate) = JsResult.ok none := by
  refine ⟨rfl, rfl, rfl, ?_⟩
  simp [zonesStateAfterFetch, findZoneDyn, findZone_nil]

/-- C3: a single qualifying gesture that reaches both the capture-phase
window listener and the Enable button's `onClick` invokes
`handleUserEnable` twice with the same render snapshot of
`primingInProgress`; the `useState`-based guard does not stop the second
invocation, so two muted `play()` unlock attempts end up in flight at
once. -/
theorem double_gesture_two_attempts :
    (sameGestureDoubleInvoke false).mutedPlayAttemptsInFlight = 2 := rfl

/-- C4: after a successful unlock (`primeAudio` succeeds, storage
available), `handleUserEnable` persists the flag and sets `audioPrimed`;
and when the automatic play attempt of the zone-change effect fails while
`audioPrimed` is set, the effect removes the persisted flag and clears
`audioPrimed`. -/
theorem unlock_sets_flag_autoplay_failure_clears_it :
    (∀ (s : AppState) (a : AudioEl) (audibleOk : Bool),
        s.primingInProgress = false → s.audio = some a →
        s.storage.available = true →
        (handleUserEnable true audibleOk s).audioPrimed = true ∧
          (handleUserEnable true audibleOk s).storage.audioPrimedFlag = some "1") ∧
    (∀ (s : AppState) (a : AudioEl) (z : Zone) (t : String),
        s.audioPrimed = true → s.audio = some a →
        s.storage.available = true →
        findZone s.zones s.coords = some z → z.playlist.head? = some t →
        t ≠ "" →
        (zoneChangeEffect false s).1.audioPrimed = false ∧
          (zoneChangeEffect false s).1.storage.audioPrimedFlag = none) := by
  constructor
  · intro s a audibleOk hpp ha hav
    cases audibleOk <;>
      simp [handleUserEnable, primeAudio, storageSetPrimed, hpp, ha, hav]
  · intro s a z t hp ha hav hz ht hne
    simp [zoneChangeEffect, storageRemovePrimed, hz, ha, ht, hne, hp, hav]

/-- C5: with the element available, `primeAudio` reports success exactly
when the muted play attempt succeeds; when it fails, `handleUserEnable`
leaves `audioPrimed` false and never writes the persisted flag; and when
the muted play succeeds but the audible play fails, success is still
reported, the flag is persisted and `audioPrimed` is set. -/
theorem primeAudio_success_iff_muted_play :
    (∀ (s : AppState) (a : AudioEl) (mutedOk audibleOk : Bool),
        s.audio = some a →
        (primeAudio mutedOk audibleOk s).1 = mutedOk) ∧
    (∀ (s : AppState) (a : AudioEl) (audibleOk : Bool),
        s.primingInProgress = false → s.audio = some a →
        s.storage.audioPrimedFlag = none →
        (handleUserEnable false audibleOk s).audioPrimed = false ∧
          (handleUserEnable false audibleOk s).storage.audioPrimedFlag = none) ∧
    (∀ (s : AppState) (a : AudioEl),
        s.primingInProgress = false → s.audio = some a →
        s.storage.available = true →
        (handleUserEnable true false s).audioPrimed = true ∧
          (handleUserEnable true false s).storage.audioPrimedFlag = some "1") := by
  refine ⟨?_, ?_, ?_⟩
  · intro s a mutedOk audibleOk ha
    cases mutedOk <;> cases audibleOk <;> simp [primeAudio, ha]
  · intro s a audibleOk hpp ha hflag
    cases audibleOk <;>
      simp [handleUserEnable, primeAudio, hpp, ha, hflag]
  · intro s a hpp ha hav
    simp [handleUserEnable, primeAudio, storageSetPrimed, hpp, ha, hav]

theorem findZone_plaza :
    findZone primedState.zones primedState.coords = some plazaZone := by
  have hm : zoneMatches plazaZone originCoordinate := by
    unfold zoneMatches
    simp only [plazaZone, originCoordinate, effectiveRadius, jsOrNum]
    rw [distanceMeters_self]
    norm_num
  show findZone [plazaZone] (some originCoordinate) = some plazaZone
  rw [findZone_cons, if_pos hm]

/-- Witness for C4: a successful unlock from the concrete locked state, and
a failed automatic play from the concrete primed state. -/
theorem unlock_sets_flag_autoplay_failure_clears_it_witness :
    ((handleUserEnable true true lockedState).audioPrimed = true ∧
        (handleUserEnable true true lockedState).storage.audioPrimedFlag = some "1") ∧
      ((zoneChangeEffect false primedState).1.audioPrimed = false ∧
        (zoneChangeEffect false primedState).1.storage.audioPrimedFlag = none) := by
  constructor
  · exact unlock_sets_flag_autoplay_failure_clears_it.1 lockedState idleAudio
      true rfl rfl rfl
  · exact unlock_sets_flag_autoplay_failure_clears_it.2 primedState idleAudio
      plazaZone "/Music/plaza.mp3" rfl rfl rfl findZone_plaza rfl (by decide)

/-- Witness for C5 at the concrete locked state: failed muted play, failed
muted play through `handleUserEnable`, and muted success with audible
failure. -/
theorem primeAudio_success_iff_muted_play_witness :
    (primeAudio false true lockedState).1 = false ∧
      ((handleUserEnable false true lockedState).audioPrimed = false ∧
        (handleUserEnable false true lockedState).storage.audioPrimedFlag = none) ∧
      ((handleUserEnable true false lockedState).audioPrimed = true ∧
        (handleUserEnable true false lockedState).storage.audioPrimedFlag = some "1") :=
  ⟨primeAudio_success_iff_muted_play.1 lockedState idleAudio false true rfl,
    primeAudio_success_iff_muted_play.2.1 lockedState idleAudio true rfl rfl rfl,
    primeAudio_success_iff_muted_play.2.2 lockedState idleAudio rfl rfl rfl⟩

/-- C6: while `audioPrimed` is false, the zone-change effect never calls
`play()` on the audio element — at most the zone's first track is assigned
to `src`. -/
theorem no_autoplay_while_locked (s : AppState) (playOk : Bool)
    (h : s.audioPrimed = false) :
    AudioOp.play ∉ (zoneChangeEffect playOk s).2 := by
  cases hz : findZone s.zones s.coords with
  | none => simp [zoneChangeEffect, hz]
  | some zz =>
    cases ha : s.audio with
    | none => simp [zoneChangeEffect, hz, ha]
    | some a =>
      cases ht : zz.playlist.head? with
      | none => simp [zoneChangeEffect, hz, ha, ht]
      | some t =>
        by_cases he : t = "" <;> simp [zoneChangeEffect, hz, ha, ht, he, h]

/-- Witness for C6 at the concrete locked state. -/
theorem no_autoplay_while_locked_witness :
    lockedState.audioPrimed = false ∧
      AudioOp.play ∉ (zoneChangeEffect true lockedState).2 :=
  ⟨rfl, no_autoplay_while_locked lockedState true rfl⟩

/-- C8: when no zone is active or the element is unavailable, the
zone-change effect performs no operation on the audio element and leaves
its state unchanged. -/
theorem no_zone_no_playback_action (s : AppState) (playOk : Bool)
    (h : findZone s.zones s.coords = none ∨ s.audio = none) :
    (zoneChangeEffect playOk s).1.audio = s.audio ∧
      (zoneChangeEffect playOk s).2 = [] := by
  rcases h with h | h
  · simp [zoneChangeEffect, h]
  · cases hz : findZone s.zones s.coords <;> simp [zoneChangeEffect, h, hz]

/-- Witness for C8 at the concrete state with no coordinate fix. -/
theorem no_zone_no_playback_action_witness :
    (findZone noFixState.zones noFixState.coords = none ∨
        noFixState.audio = none) ∧
      (zoneChangeEffect true noFixState).1.audio = noFixState.audio ∧
      (zoneChangeEffect true noFixState).2 = [] := by
  have h : findZone noFixState.zones noFixState.coords = none :=
    findZone_none_coords noFixState.zones
  exact ⟨Or.inl h, no_zone_no_playback_action noFixState true (Or.inl h)⟩

/-- C10: whenever `primeAudio` returns with the element present, the
element is unmuted: the success path unmutes after the muted play, and the
catch of a failed muted play restores `muted` to false before reporting
failure. -/
theorem primeAudio_never_leaves_muted (s : AppState)
    (mutedOk audibleOk : Bool) (a : AudioEl) (ha : s.audio = some a) :
    ∃ a' : AudioEl, (primeAudio mutedOk audibleOk s).2.1.audio = some a' ∧
      a'.muted = false := by
  cases mutedOk <;> cases audibleOk <;> simp [primeAudio, ha]

/-- Witness for C10 at the concrete locked state with the idle element. -/
theorem primeAudio_never_leaves_muted_witness :
    lockedState.audio = some idleAudio ∧
      ∃ a' : AudioEl, (primeAudio false false lockedState).2.1.audio = some a' ∧
        a'.muted = false :=
  ⟨rfl, primeAudio_never_leaves_muted lockedState false false idleAudio rfl⟩

end VibePlayer
